import Mathlib

/-!
Shallow embedding of the cache-and-fallback transcript resolution engine of
the `youtube-api-mcp` repository, together with theorems settling the frozen
claims about it.

Embedded source files:
  * `src/app/services/youtube_service.py` — identifier resolver (`get_video_id`),
    upstream fetcher with retry/backoff (`fetch_transcript`,
    `_is_transient_network_error`);
  * `src/app/services/cache_service.py` — file cache keyed by
    `{video_id}_{language}.json` with lazy TTL expiry and corrupt-entry
    self-healing;
  * `src/app/routers/transcript.py` — the `get_transcript` HTTP endpoint
    (resolution engine) and its exception-to-status mapping;
  * `src/app/mcp/server.py` — the MCP tools `get_youtube_transcript`
    and `clear_cache`.

Modelling conventions: Python dicts with a fixed key set become structures;
timestamps (`datetime` / ISO strings) become rationals counting seconds;
the file system under the cache directory becomes an association list from
file names to parsed file contents; Python exceptions become an explicit
`PyExc` value with a class tag, a message, and an optional cause chain
(`__cause__`/`__context__`).
-/

namespace YTA

/-! ### Python-style scalar values and dict-like metadata -/

/-- A scalar value as it appears in the yt-dlp metadata dict. -/
inductive MetaVal where
  | vNone
  | vStr (s : String)
  | vInt (n : Int)
  | vBool (b : Bool)
deriving DecidableEq

/-- The full metadata mapping (a Python dict of scalars). -/
abbrev Metadata := List (String × MetaVal)

/-- Python `str()` of a metadata value, as used in f-string interpolation. -/
def pyStr : MetaVal → String
  | .vNone => "None"
  | .vStr s => s
  | .vInt n => toString n
  | .vBool b => if b then "True" else "False"

/-- Association-list lookup (Python `dict[key]` / file lookup by name). -/
def alookup {α : Type} : List (String × α) → String → Option α
  | [], _ => none
  | (k, v) :: rest, key => if k = key then some v else alookup rest key

/-- Remove every binding of `key` (Python `Path.unlink` for the file model). -/
def aerase {α : Type} : List (String × α) → String → List (String × α)
  | [], _ => []
  | (k, v) :: rest, key => if k = key then aerase rest key else (k, v) :: aerase rest key

/-- Write a binding, replacing any previous one (file overwrite). -/
def ainsert {α : Type} (l : List (String × α)) (key : String) (v : α) : List (String × α) :=
  (key, v) :: aerase l key

/-- Python `dict.get(key, default)`. -/
def metaGet (m : Metadata) (k : String) (d : MetaVal) : MetaVal :=
  match alookup m k with
  | some v => v
  | none => d

/-! ### Python exceptions -/

/-- The exception classes that play a role in
`src/app/services/youtube_service.py` and `src/app/routers/transcript.py`. -/
inductive ExcKind where
  | connectionResetError
  | timeoutError
  | transcriptsDisabled
  | noTranscriptFound
  | videoUnavailable
  | valueError
  | typeError
  | otherError
deriving DecidableEq

/-- A Python exception value: class tag, `str()` message, and the
`__cause__` / `__context__` chain (`chained` when one is present). -/
inductive PyExc where
  | mk (kind : ExcKind) (msg : String)
  | chained (kind : ExcKind) (msg : String) (cause : PyExc)
deriving DecidableEq

/-- Class tag of the outermost exception. -/
def PyExc.kind : PyExc → ExcKind
  | .mk k _ => k
  | .chained k _ _ => k

/-- `str()` of the outermost exception. -/
def PyExc.msg : PyExc → String
  | .mk _ m => m
  | .chained _ m _ => m

/-- `raise ValueError(msg)` with no cause. -/
def mkVE (m : String) : PyExc := .mk .valueError m

/-! ### Substring test (Python `pat in msg`) -/

/-- Character-list prefix test (used both by the substring test and by the
hand-compiled regular expressions of `get_video_id`). -/
def litPre : List Char → List Char → Bool
  | [], _ => true
  | _ :: _, [] => false
  | a :: as, b :: bs => a == b && litPre as bs

/-- Does `p` occur as a contiguous sublist of the second argument? -/
def hasSubAux (p : List Char) : List Char → Bool
  | [] => litPre p []
  | c :: t => litPre p (c :: t) || hasSubAux p t

/-- Python `pat in s` (substring containment). -/
def strHasSub (s pat : String) : Bool := hasSubAux pat.data s.data

/-! ### `_is_transient_network_error` (youtube_service.py lines 68-90) -/

/-- `isinstance(cur, (ConnectionResetError, TimeoutError))`. -/
def isTransientKind : ExcKind → Bool
  | .connectionResetError => true
  | .timeoutError => true
  | _ => false

/-- The per-exception transient test applied to each chain element
(youtube_service.py lines 79-89). -/
def isTransientOne (e : PyExc) : Bool :=
  isTransientKind e.kind
    || strHasSub e.msg "Connection reset by peer"
    || strHasSub e.msg "Connection aborted"
    || strHasSub e.msg "Read timed out"
    || strHasSub e.msg "Remote end closed connection"

/-- Walk the `__cause__`/`__context__` chain, testing each element
(the `_iter_chain` loop; the model's chain is finite so the `seen`
cycle guard needs no counterpart). -/
def chainAny (p : PyExc → Bool) : PyExc → Bool
  | .mk k m => p (.mk k m)
  | .chained k m c => p (.chained k m c) || chainAny p c

/-- `_is_transient_network_error` from youtube_service.py lines 68-90. -/
def is_transient_network_error (e : PyExc) : Bool := chainAny isTransientOne e

/-! ### `fetch_transcript` (youtube_service.py lines 55-135)

The service's own signature takes ONLY `video_id`: it always selects the
first available track (non-auto-generated preferred), with no language
argument at all. -/

/-- One transcript track as listed by the upstream provider
(`language_code`, `is_generated`, and the outcome of `fetch()` on it). -/
structure Track where
  language_code : String
  is_generated : Bool
  fetched : Except PyExc (List String)

/-- The upstream environment for a fetch: the outcome of the k-th
`self.api.list(video_id)` call, the value of `random.random()` before the
k-th sleep, and the dict `_get_video_metadata` returns (that helper
swallows all failures and returns a dict, possibly empty). -/
structure FetchEnv where
  api : Nat → Except PyExc (List Track)
  jit : Nat → ℚ
  meta : Metadata

/-- The dict built and returned by `fetch_transcript` (and later mutated in
place by `save_transcript`): keys `video_id`, `transcript`, `language`,
`cached`, `cached_at`, `cache_used` (absent until `save_transcript` adds
it), `metadata`. -/
structure TData where
  video_id : String
  transcript : String
  language : String
  cached : Bool
  cached_at : Option ℚ
  cache_used : Option Bool
  metadata : Metadata
deriving DecidableEq

/-- The body of one `try:` block of the retry loop (youtube_service.py
lines 96-121): list tracks, prefer non-generated ones, take the first,
fetch its segments, join with spaces, attach metadata.  The
`raise ValueError("No transcript found …")` of line 104 is raised inside
the `try`, so it surfaces here as an error value to be run through the
`except` clauses like any other exception. -/
def attemptBody (env : FetchEnv) (vid : String) (i : Nat) : Except PyExc TData :=
  match env.api i with
  | .error e => .error e
  | .ok tracks =>
    let avail := tracks.filter (fun t => !t.is_generated)
    let avail2 := if avail.isEmpty then tracks else avail
    match avail2 with
    | [] => .error (mkVE ("No transcript found for video " ++ vid))
    | first :: _ =>
      match first.fetched with
      | .error e => .error e
      | .ok segs =>
        .ok { video_id := vid
              transcript := String.intercalate " " segs
              language := first.language_code
              cached := false
              cached_at := none
              cache_used := none
              metadata := env.meta }

/-- `isinstance` dispatch of the first three `except` clauses
(youtube_service.py lines 123-128). -/
def isSpecialExc : ExcKind → Bool
  | .transcriptsDisabled => true
  | .noTranscriptFound => true
  | .videoUnavailable => true
  | _ => false

/-- The `ValueError` message produced when an attempt's exception is not
retried: the dedicated messages of lines 124/126/128 for the three special
classes, the line-135 wrap for everything else. -/
def finalErrMsg (vid : String) (e : PyExc) : String :=
  if e.kind = ExcKind.transcriptsDisabled then "Transcripts are disabled for video " ++ vid
  else if e.kind = ExcKind.noTranscriptFound then "No transcript found for video " ++ vid
  else if e.kind = ExcKind.videoUnavailable then "Video " ++ vid ++ " is unavailable"
  else "Error fetching transcript: " ++ e.msg

/-- The backoff before the retry that follows attempt number `attempt`
(youtube_service.py lines 131-132):
`base_delay_s * (2 ** (attempt - 1))` scaled by
`1.0 + random.random() * 0.25`, with `base_delay_s = 0.5`. -/
def sleepDelay (jit : Nat → ℚ) (attempt : Nat) : ℚ :=
  (1 / 2) * ((2 ^ (attempt - 1) : ℕ) : ℚ) * (1 + jit attempt * (1 / 4))

deriving instance DecidableEq for Except

/-- Outcome of `fetch_transcript`: the returned dict or the raised
`ValueError`, plus the sequence of `time.sleep` delays issued and the
number of attempts executed. -/
structure FetchOutcome where
  result : Except PyExc TData
  sleeps : List ℚ
  attemptsUsed : Nat
deriving DecidableEq

/-- The `for attempt in range(1, attempts + 1)` loop of
`fetch_transcript` (youtube_service.py lines 95-135).  The argument list
holds the attempt numbers still to run ( `[1, 2, 3]` initially); an
exception is retried exactly when it is none of the three special classes,
attempts remain (`attempt < attempts` ⟺ the remaining list is nonempty),
and `_is_transient_network_error` holds; otherwise the loop raises the
corresponding `ValueError`.  The empty-list case corresponds to the loop
falling through, which cannot happen from the canonical call. -/
def fetchGo (env : FetchEnv) (vid : String) : List Nat → List ℚ → FetchOutcome
  | [], sleeps => { result := .error (mkVE "loop exhausted"), sleeps := sleeps, attemptsUsed := 0 }
  | attempt :: rest, sleeps =>
    match attemptBody env vid (attempt - 1) with
    | .ok r => { result := .ok r, sleeps := sleeps, attemptsUsed := attempt }
    | .error e =>
      if !isSpecialExc e.kind && (!rest.isEmpty && is_transient_network_error e) then
        fetchGo env vid rest (sleeps ++ [sleepDelay env.jit attempt])
      else
        { result := .error (mkVE (finalErrMsg vid e)), sleeps := sleeps, attemptsUsed := attempt }

/-- `YouTubeService.fetch_transcript(self, video_id)` — `attempts = 3`. -/
def fetch_transcript (env : FetchEnv) (vid : String) : FetchOutcome :=
  fetchGo env vid [1, 2, 3] []

/-! ### `get_video_id` (youtube_service.py lines 24-53)

The two regular expressions of lines 43-46 are hand-compiled into scanning
functions with `re.search` leftmost-match and greedy semantics:

  pattern 1: `(?:youtube\.com/watch\?v=|youtu\.be/|youtube\.com/embed/)([^&\n?#]+)`
  pattern 2: `youtube\.com/watch\?.*v=([^&\n?#]+)`
-/

/-- A character the capture group `([^&\n?#]+)` accepts. -/
def okChar (c : Char) : Bool := !(c == '&' || c == '\n' || c == '?' || c == '#')

/-- One of the four characters a bare 11-character ID must not contain
(youtube_service.py line 38). -/
def reservedChar (c : Char) : Bool := c == '/' || c == '.' || c == '?' || c == '&'

/-- Match the literal `lit` at the head of `l`, then greedily capture a
nonempty run of `okChar` characters (one regex alternative anchored at the
current search position). -/
def captureAt (lit : List Char) (l : List Char) : Option (List Char) :=
  if litPre lit l then
    let r := (l.drop lit.length).takeWhile okChar
    if r.isEmpty then none else some r
  else none

def litWatch : List Char := "youtube.com/watch?v=".data
def litShort : List Char := "youtu.be/".data
def litEmbed : List Char := "youtube.com/embed/".data
def litWatchQ : List Char := "youtube.com/watch?".data

/-- Pattern 1 tried at one search position: the three alternatives in
source order. -/
def p1At (l : List Char) : Option (List Char) :=
  captureAt litWatch l <|> (captureAt litShort l <|> captureAt litEmbed l)

/-- `re.search` for pattern 1: try every position left to right. -/
def p1Search : List Char → Option (List Char)
  | [] => none
  | c :: t => p1At (c :: t) <|> p1Search t

/-- The `v=([^&\n?#]+)` tail of pattern 2 at one position. -/
def vHere (l : List Char) : Option (List Char) := captureAt "v=".data l

/-- Greedy `.*v=([^&\n?#]+)`: `.*` cannot cross a newline and prefers the
longest skip, backtracking right to left. -/
def p2From : List Char → Option (List Char)
  | [] => none
  | c :: t => (if c == '\n' then none else p2From t) <|> vHere (c :: t)

/-- `re.search` for pattern 2: at each position require the literal
`youtube.com/watch?` (18 characters) and then the greedy tail. -/
def p2Search : List Char → Option (List Char)
  | [] => none
  | c :: t =>
    (if litPre litWatchQ (c :: t) then p2From ((c :: t).drop 18) else none) <|> p2Search t

/-- `YouTubeService.get_video_id` (youtube_service.py lines 24-53):
return an 11-character reserved-free input unchanged, otherwise try the
two URL patterns in order, otherwise raise
`ValueError("Invalid YouTube URL or ID: …")`. -/
def get_video_id (s : String) : Except String String :=
  if s.length == 11 && !(s.data.any reservedChar) then .ok s
  else
    match p1Search s.data with
    | some g => .ok (String.mk g)
    | none =>
      match p2Search s.data with
      | some g => .ok (String.mk g)
      | none => .error ("Invalid YouTube URL or ID: " ++ s)

/-! ### Cache store (`src/app/services/cache_service.py`)

The cache directory is a map from file names to parsed file contents.  A
file either parses to a dict whose `cached_at` field is a valid timestamp
(`good t data`), or fails during `json.load` / `datetime.fromisoformat` /
key access with one of the caught classes `JSONDecodeError`, `ValueError`,
`KeyError` (`corrupt`) — in particular a file lacking the `cached_at` key
is `corrupt`, since `data.get('cached_at', '')` then feeds `''` to
`fromisoformat`, raising `ValueError` (cache_service.py lines 70 and 79). -/

inductive CacheFile where
  | corrupt
  | good (t : ℚ) (data : TData)
deriving DecidableEq

abbrev Store := List (String × CacheFile)

/-- `CacheService._get_cache_file_path`: file name `f"{video_id}_{language}.json"`
(the constant cache directory prefix is dropped). -/
def cache_file_name (video_id language : String) : String :=
  video_id ++ ("_" ++ (language ++ ".json"))

/-- `CacheService.get_cached_transcript` (cache_service.py lines 49-82),
with `now` the value of `datetime.now()` and `ttlDays` the setting
`APP_CACHE_TTL_DAYS`.  Expiry is the strict comparison
`datetime.now() - cached_at > timedelta(days=ttlDays)` of line 73; an
expired or corrupt file is unlinked and `None` returned. -/
def get_cached_transcript (ttlDays : ℕ) (st : Store) (now : ℚ) (video_id language : String) :
    Option TData × Store :=
  let f := cache_file_name video_id language
  match alookup st f with
  | none => (none, st)
  | some .corrupt => (none, aerase st f)
  | some (.good t data) =>
    if now - t > (ttlDays : ℚ) * 86400 then (none, aerase st f)
    else (some data, st)

/-- `CacheService.save_transcript` (cache_service.py lines 84-100).  The
`data` dict is MUTATED in place (`data['cached_at'] = …`,
`data['cache_used'] = True`) before being written, so the mutated dict is
returned alongside the new store: the caller keeps holding it. -/
def save_transcript (st : Store) (now : ℚ) (video_id : String) (data : TData)
    (language : String) : Store × TData :=
  let data2 := { data with cached_at := some now, cache_used := some true }
  (ainsert st (cache_file_name video_id language) (CacheFile.good now data2), data2)

/-- Result dict of `CacheService.clear_cache`. -/
structure ClearResult where
  success : Bool
  message : String
deriving DecidableEq

/-- `CacheService.clear_cache` (cache_service.py lines 102-131); note its
`language` parameter defaults to `"en"` while the get/save defaults are
`"pl"`.  The model's file deletion cannot fail, so the
`except` branch of lines 127-131 is unreachable here. -/
def clear_cache (st : Store) (video_id language : String) : ClearResult × Store :=
  let f := cache_file_name video_id language
  match alookup st f with
  | none =>
    ({ success := false
       message := "No cache found for video " ++ video_id ++ " (language: " ++ language ++ ")" },
     st)
  | some _ =>
    ({ success := true
       message := "Cache cleared for video " ++ video_id ++ " (language: " ++ language ++ ")" },
     aerase st f)

/-! ### The HTTP router (`src/app/routers/transcript.py`) -/

/-- `_extract_basic_metadata` (transcript.py lines 9-19). -/
def extract_basic_metadata (m : Metadata) : Metadata :=
  [("title", metaGet m "title" (.vStr "Unknown")),
   ("author", metaGet m "author" (.vStr "Unknown")),
   ("duration", metaGet m "duration" (.vInt 0)),
   ("publish_date", metaGet m "upload_date" (.vStr "Unknown")),
   ("view_count", metaGet m "view_count" (.vInt 0)),
   ("thumbnail", metaGet m "thumbnail" .vNone),
   ("description", metaGet m "description" .vNone)]

/-- The `TranscriptResponse` pydantic model (models.py lines 6-13); its
extra-key policy ignores the `cached` key of the dicts fed to it, and its
defaults supply `cache_used = False`, `cached_at = None` when absent. -/
structure TranscriptResponse where
  video_id : String
  transcript : String
  language : String
  cache_used : Bool
  cached_at : Option ℚ
  metadata : Metadata
deriving DecidableEq

/-- What the endpoint hands back to FastAPI: a response model, or an
`HTTPException` with a status code and detail string. -/
inductive RouterResult where
  | ok (r : TranscriptResponse)
  | httpError (status : ℕ) (detail : String)
deriving DecidableEq

/-- `TranscriptResponse(**cached)` after
`cached["metadata"] = _extract_basic_metadata(cached["metadata"])`
(transcript.py lines 195-196 and the other cache-hit branches). -/
def responseFromCached (c : TData) : TranscriptResponse :=
  { video_id := c.video_id
    transcript := c.transcript
    language := c.language
    cache_used := c.cache_used.getD false
    cached_at := c.cached_at
    metadata := extract_basic_metadata c.metadata }

/-- `str()` of the `TypeError` Python raises at transcript.py line 207. -/
def fetch_call_type_error_msg : String :=
  "YouTubeService.fetch_transcript() takes 2 positional arguments but 3 were given"

/-- The router (transcript.py line 207) invokes
`youtube_service.fetch_transcript(video_id, language)` with two arguments,
but `YouTubeService.fetch_transcript` (youtube_service.py line 55) accepts
only `(self, video_id)`.  Python therefore raises `TypeError` at the call
site, before the function body — and hence the upstream provider — can
run, whatever the upstream environment holds.  This definition is the
semantics of that call expression. -/
def router_fetch_call (_env : FetchEnv) (_vid _language : String) : Except PyExc TData :=
  .error (PyExc.mk .typeError fetch_call_type_error_msg)

/-- The `except` clauses of `get_transcript` (transcript.py lines
229-238): `ValueError` becomes a 400 with the error text as detail, every
other exception a 500 with the `"Error fetching transcript: …"` wrap. -/
def router_exc_response (e : PyExc) : RouterResult :=
  if e.kind = ExcKind.valueError then .httpError 400 e.msg
  else .httpError 500 ("Error fetching transcript: " ++ e.msg)

/-- Lines 223-227 of transcript.py: replace the metadata by its basic
projection, force `cache_used = False`, and build the response — note
`cached_at` is taken from the dict as-is, so a `cached_at` planted into
the dict by `save_transcript`'s in-place mutation survives into the
response. -/
def fresh_return (tdata : TData) (st : Store) : RouterResult × Store :=
  let t2 := { tdata with metadata := extract_basic_metadata tdata.metadata
                         cache_used := some false }
  (.ok { video_id := t2.video_id
         transcript := t2.transcript
         language := t2.language
         cache_used := t2.cache_used.getD false
         cached_at := t2.cached_at
         metadata := t2.metadata }, st)

/-- Lines 209-227 of transcript.py: the code that would run after a
successful fetch — re-check the cache under the language the fetch
actually reported, otherwise persist and return the fresh result.
Unreachable from `get_transcript` because the fetch call raises first,
but embedded faithfully (and provable about on its own). -/
def fresh_path (ttlDays : ℕ) (st : Store) (now : ℚ) (vid : String) (use_cache : Bool)
    (tdata : TData) : RouterResult × Store :=
  if use_cache then
    match get_cached_transcript ttlDays st now vid tdata.language with
    | (some cached, st2) => (.ok (responseFromCached cached), st2)
    | (none, st2) =>
      let (st3, tdata2) := save_transcript st2 now vid tdata tdata.language
      fresh_return tdata2 st3
  else fresh_return tdata st

/-- The fetch-and-beyond phase of the endpoint (transcript.py lines
206-227 under the try of line 185): run the line-207 call, dispatch a
raised exception to the `except` clauses, continue with the fresh-path
code on success. -/
def fetch_phase (ttlDays : ℕ) (env : FetchEnv) (st : Store) (now : ℚ)
    (vid language : String) (use_cache : Bool) : RouterResult × Store :=
  match router_fetch_call env vid language with
  | .error e => (router_exc_response e, st)
  | .ok tdata => fresh_path ttlDays st now vid use_cache tdata

/-- The `get_transcript` endpoint (transcript.py lines 146-238): resolve
the identifier, when `use_cache` look up the requested language and then
the `"en"` fallback key, otherwise fetch. -/
def get_transcript (ttlDays : ℕ) (env : FetchEnv) (st : Store) (now : ℚ)
    (video_id language : String) (use_cache : Bool) : RouterResult × Store :=
  match get_video_id video_id with
  | .error msg => (.httpError 400 msg, st)
  | .ok vid =>
    if use_cache then
      match get_cached_transcript ttlDays st now vid language with
      | (some cached, st2) => (.ok (responseFromCached cached), st2)
      | (none, st2) =>
        if language ≠ "en" then
          match get_cached_transcript ttlDays st2 now vid "en" with
          | (some cached, st3) => (.ok (responseFromCached cached), st3)
          | (none, st3) => fetch_phase ttlDays env st3 now vid language use_cache
        else fetch_phase ttlDays env st2 now vid language use_cache
    else fetch_phase ttlDays env st now vid language use_cache

/-! ### The MCP tools (`src/app/mcp/server.py`) -/

/-- The f-string block shared by the cached and fresh branches of the MCP
`get_youtube_transcript` tool (server.py lines 50-58 and 69-77); the
cached branch prepends `"[CACHED] "`. -/
def mcp_line_block (tag : String) (basic : Metadata) (lang tr : String) : String :=
  tag ++ "Title: " ++ pyStr (metaGet basic "title" (.vStr "Unknown")) ++ "\n" ++
  "Author: " ++ pyStr (metaGet basic "author" (.vStr "Unknown")) ++ "\n" ++
  "Duration: " ++ pyStr (metaGet basic "duration" (.vStr "N/A")) ++ "s\n" ++
  "Views: " ++ pyStr (metaGet basic "view_count" (.vStr "N/A")) ++ "\n" ++
  "Published: " ++ pyStr (metaGet basic "publish_date" (.vStr "N/A")) ++ "\n" ++
  "Language: " ++ lang ++ "\n" ++
  "Thumbnail: " ++ pyStr (metaGet basic "thumbnail" (.vStr "N/A")) ++ "\n" ++
  "Description: " ++ pyStr (metaGet basic "description" (.vStr "N/A")) ++ "\n\n" ++
  "Transcript:\n" ++ tr

/-- The MCP tool `get_youtube_transcript` (server.py lines 30-80).  It
calls `get_cached_transcript(video_id)` and `save_transcript(video_id,
transcript_data)` with NO language argument, so both use the service's
default `"pl"`; the fetch call here passes only `video_id`, matching the
service signature, so this path does run.  Any exception is caught and
rendered as `"Error: …"`. -/
def get_youtube_transcript (ttlDays : ℕ) (env : FetchEnv) (st : Store) (now : ℚ)
    (video_id : String) : String × Store :=
  match get_video_id video_id with
  | .error msg => ("Error: " ++ msg, st)
  | .ok vid =>
    match get_cached_transcript ttlDays st now vid "pl" with
    | (some cached, st2) =>
      (mcp_line_block "[CACHED] " (extract_basic_metadata cached.metadata)
        cached.language cached.transcript, st2)
    | (none, st2) =>
      match (fetch_transcript env vid).result with
      | .error e => ("Error: " ++ e.msg, st2)
      | .ok tdata =>
        let (st3, td2) := save_transcript st2 now vid tdata "pl"
        (mcp_line_block "" (extract_basic_metadata td2.metadata)
          td2.language td2.transcript, st3)

/-- The MCP tool `clear_cache` (server.py lines 83-107): it calls
`cache_service.clear_cache(video_id)` with no language, so the service's
`"en"` default applies. -/
def mcp_clear_cache (st : Store) (video_id : String) : String × Store :=
  match get_video_id video_id with
  | .error msg => ("Error: " ++ msg, st)
  | .ok vid =>
    let (res, st2) := clear_cache st vid "en"
    (if res.success then "✓ " ++ res.message else "✗ " ++ res.message, st2)

/-! ### Association-list lemmas -/

theorem alookup_ainsert_self {α : Type} (l : List (String × α)) (k : String) (v : α) :
    alookup (ainsert l k v) k = some v := by
  simp [ainsert, alookup]

theorem alookup_aerase_self {α : Type} (l : List (String × α)) (k : String) :
    alookup (aerase l k) k = none := by
  induction l with
  | nil => rfl
  | cons hd tl ih =>
    obtain ⟨k', v'⟩ := hd
    by_cases h : k' = k
    · simpa [aerase, h] using ih
    · simpa [aerase, alookup, h] using ih

theorem alookup_aerase_ne {α : Type} (l : List (String × α)) (k k' : String) (h : k' ≠ k) :
    alookup (aerase l k) k' = alookup l k' := by
  induction l with
  | nil => rfl
  | cons hd tl ih =>
    obtain ⟨k0, v0⟩ := hd
    by_cases h0 : k0 = k
    · have h3 : k ≠ k' := fun hk => h hk.symm
      simp [aerase, alookup, h0, h3, ih]
    · simp [aerase, alookup, h0, ih]

theorem alookup_ainsert_ne {α : Type} (l : List (String × α)) (k k' : String) (v : α)
    (h : k' ≠ k) : alookup (ainsert l k v) k' = alookup l k' := by
  have hk : k ≠ k' := fun hk => h hk.symm
  simp [ainsert, alookup, hk, alookup_aerase_ne l k k' h]

/-! ### C7 — TTL boundary of the cache store -/

/-- C7: an entry written at time `T` with TTL `D` days is still served by
`get_cached_transcript` one second before `T + D` days, and one second
after that boundary the read returns `None` and deletes the file
(cache_service.py lines 49-82: lazy expiry with the strict comparison
`now - cached_at > timedelta(days=D)`). -/
theorem claim7_ttl_boundary (st : Store) (T : ℚ) (D : ℕ) (vid lang : String) (data : TData) :
    (get_cached_transcript D ((save_transcript st T vid data lang).1)
        (T + (D : ℚ) * 86400 - 1) vid lang).1
      = some { data with cached_at := some T, cache_used := some true }
    ∧ get_cached_transcript D ((save_transcript st T vid data lang).1)
        (T + (D : ℚ) * 86400 + 1) vid lang
      = (none, aerase ((save_transcript st T vid data lang).1) (cache_file_name vid lang))
    ∧ alookup (get_cached_transcript D ((save_transcript st T vid data lang).1)
        (T + (D : ℚ) * 86400 + 1) vid lang).2 (cache_file_name vid lang) = none := by
  have hins : alookup ((save_transcript st T vid data lang).1) (cache_file_name vid lang)
      = some (CacheFile.good T { data with cached_at := some T, cache_used := some true }) := by
    simp [save_transcript, alookup_ainsert_self]
  have hfresh : ¬ (T + (D : ℚ) * 86400 - 1 - T > (D : ℚ) * 86400) := by
    intro h; linarith
  have hstale : T + (D : ℚ) * 86400 + 1 - T > (D : ℚ) * 86400 := by linarith
  refine ⟨?_, ?_, ?_⟩
  · simp [get_cached_transcript, hins, hfresh]
  · simp [get_cached_transcript, hins, hstale]
  · simp [get_cached_transcript, hins, hstale, alookup_aerase_self]

/-! ### C8 — corrupt cache entries self-heal -/

/-- C8: a cache file that fails to parse (or lacks a usable `cached_at`
field) makes `get_cached_transcript` return `None` exactly like a miss,
and the file is gone afterwards (cache_service.py lines 79-82). -/
theorem claim8_corrupt_self_heal (D : ℕ) (st : Store) (now : ℚ) (vid lang : String)
    (h : alookup st (cache_file_name vid lang) = some CacheFile.corrupt) :
    get_cached_transcript D st now vid lang = (none, aerase st (cache_file_name vid lang))
    ∧ alookup (get_cached_transcript D st now vid lang).2 (cache_file_name vid lang) = none := by
  refine ⟨by simp [get_cached_transcript, h], ?_⟩
  simp [get_cached_transcript, h, alookup_aerase_self]

/-- Witness for C8 at a concrete store holding one corrupt file. -/
theorem claim8_corrupt_self_heal_witness :
    get_cached_transcript 30 [("vid12345678_en.json", CacheFile.corrupt)] 0 "vid12345678" "en"
      = (none, [])
    ∧ alookup (get_cached_transcript 30 [("vid12345678_en.json", CacheFile.corrupt)] 0
        "vid12345678" "en").2 ("vid12345678_en.json") = none := by
  have h := claim8_corrupt_self_heal 30 [("vid12345678_en.json", CacheFile.corrupt)] 0
    "vid12345678" "en" (by rfl)
  exact ⟨by simpa [aerase, cache_file_name] using h.1, by simpa [cache_file_name] using h.2⟩

/-! ### C5 — transient failures are retried with exponential backoff -/

/-- C5: when the upstream attempt fails with a retriable transient error
twice and succeeds on the third try, `fetch_transcript` returns that
success on attempt 3 and sleeps exactly twice; the delays are
`0.5·2^(k−1)` seconds scaled by `1 + jitter` with `jitter ∈ [0, 0.25)`,
so their non-jittered components (0.5 s then 1 s) strictly increase
(youtube_service.py lines 92-135). -/
theorem claim5_retry_backoff (env : FetchEnv) (vid : String) (r : TData) (e0 e1 : PyExc)
    (h0 : attemptBody env vid 0 = Except.error e0)
    (h0s : isSpecialExc e0.kind = false)
    (h0t : is_transient_network_error e0 = true)
    (h1 : attemptBody env vid 1 = Except.error e1)
    (h1s : isSpecialExc e1.kind = false)
    (h1t : is_transient_network_error e1 = true)
    (h2 : attemptBody env vid 2 = Except.ok r)
    (hj : ∀ k, 0 ≤ env.jit k ∧ env.jit k < 1) :
    fetch_transcript env vid
      = { result := .ok r
          sleeps := [sleepDelay env.jit 1, sleepDelay env.jit 2]
          attemptsUsed := 3 }
    ∧ sleepDelay env.jit 1 = 1 / 2 * (1 + env.jit 1 * (1 / 4))
    ∧ sleepDelay env.jit 2 = 1 * (1 + env.jit 2 * (1 / 4))
    ∧ 1 / 2 ≤ sleepDelay env.jit 1 ∧ sleepDelay env.jit 1 < 5 / 8
    ∧ 1 ≤ sleepDelay env.jit 2 ∧ sleepDelay env.jit 2 < 5 / 4
    ∧ sleepDelay env.jit 1 < sleepDelay env.jit 2 := by
  obtain ⟨hj1, hj1'⟩ := hj 1
  obtain ⟨hj2, hj2'⟩ := hj 2
  have hd1 : sleepDelay env.jit 1 = 1 / 2 * (1 + env.jit 1 * (1 / 4)) := by
    norm_num [sleepDelay]
  have hd2 : sleepDelay env.jit 2 = 1 * (1 + env.jit 2 * (1 / 4)) := by
    norm_num [sleepDelay]
  refine ⟨?_, hd1, hd2, ?_, ?_, ?_, ?_, ?_⟩
  · simp [fetch_transcript, fetchGo, h0, h0s, h0t, h1, h1s, h1t, h2]
  · rw [hd1]; linarith
  · rw [hd1]; linarith
  · rw [hd2]; linarith
  · rw [hd2]; linarith
  · rw [hd1, hd2]; linarith

/-- A track environment for the retry witnesses: the first two
`api.list` calls raise a read timeout, the third succeeds. -/
def envRetryTwice : FetchEnv :=
  { api := fun i =>
      if i ≤ 1 then .error (PyExc.mk .otherError "Read timed out")
      else .ok [{ language_code := "en", is_generated := false, fetched := .ok ["hello world"] }]
    jit := fun _ => 0
    meta := [] }

/-- The fetch result the witness environment produces. -/
def tdHello : TData :=
  { video_id := "abcdefghijk", transcript := "hello world", language := "en"
    cached := false, cached_at := none, cache_used := none, metadata := [] }

/-- Witness for C5 at the concrete retry environment. -/
theorem claim5_retry_backoff_witness :
    fetch_transcript envRetryTwice "abcdefghijk"
      = { result := .ok tdHello
          sleeps := [sleepDelay envRetryTwice.jit 1, sleepDelay envRetryTwice.jit 2]
          attemptsUsed := 3 } :=
  (claim5_retry_backoff envRetryTwice "abcdefghijk" tdHello
    (PyExc.mk .otherError "Read timed out") (PyExc.mk .otherError "Read timed out")
    rfl rfl rfl rfl rfl rfl rfl
    (fun _ => ⟨by norm_num [envRetryTwice], by norm_num [envRetryTwice]⟩)).1

/-! ### C6 — non-transient failures abort after one attempt -/

/-- C6: if the first attempt fails with an error whose causal chain shows
no transient condition, `fetch_transcript` never retries: it returns the
wrapped `ValueError` after exactly one attempt and issues no sleep
(youtube_service.py lines 123-135). -/
theorem claim6_nontransient_aborts (env : FetchEnv) (vid : String) (e : PyExc)
    (h : attemptBody env vid 0 = Except.error e)
    (ht : is_transient_network_error e = false) :
    fetch_transcript env vid
      = { result := .error (mkVE (finalErrMsg vid e)), sleeps := [], attemptsUsed := 1 } := by
  simp [fetch_transcript, fetchGo, h, ht]

/-- An environment whose upstream always fails non-transiently. -/
def envBoom : FetchEnv :=
  { api := fun _ => .error (PyExc.mk .otherError "boom"), jit := fun _ => 0, meta := [] }

/-- Witness for C6 at a concrete non-transient failure. -/
theorem claim6_nontransient_aborts_witness :
    fetch_transcript envBoom "abcdefghijk"
      = { result := .error (mkVE (finalErrMsg "abcdefghijk" (PyExc.mk .otherError "boom")))
          sleeps := [], attemptsUsed := 1 } :=
  claim6_nontransient_aborts envBoom "abcdefghijk" (PyExc.mk .otherError "boom") rfl rfl

/-! ### C3 — how errors are surfaced to the HTTP caller -/

/-- Every failure of the fetch loop is raised as a `ValueError`
(the only raise statements are youtube_service.py lines 104, 124, 126,
128, 135, all `ValueError`). -/
theorem fetchGo_error_kind (env : FetchEnv) (vid : String) (a : List Nat) :
    ∀ (s : List ℚ) (e : PyExc),
      (fetchGo env vid a s).result = Except.error e → e.kind = ExcKind.valueError := by
  induction a with
  | nil =>
    intro s e h
    have h2 : mkVE "loop exhausted" = e := by simpa [fetchGo] using h
    rw [← h2]; rfl
  | cons k rest ih =>
    intro s e h
    cases heq : attemptBody env vid (k - 1) with
    | ok r => simp [fetchGo, heq] at h
    | error e' =>
      cases hc : (!isSpecialExc e'.kind && (!rest.isEmpty && is_transient_network_error e')) with
      | true =>
        rw [fetchGo, heq] at h
        simp only [hc, if_true] at h
        exact ih _ _ h
      | false =>
        have h2 : mkVE (finalErrMsg vid e') = e := by
          rw [fetchGo, heq] at h
          simpa [hc] using h
        rw [← h2]; rfl

/-- An upstream that fails with a transient read timeout on every
attempt: the retry budget is exhausted. -/
def envAllTransient : FetchEnv :=
  { api := fun _ => .error (PyExc.mk .otherError "Read timed out"), jit := fun _ => 0, meta := [] }

/-- Counterexample to C3: a transient-exhausted upstream failure leaves
`fetch_transcript` as a `ValueError`, and the router's exception mapping
(transcript.py lines 229-238) turns every `ValueError` into HTTP 400 — a
client-error class, not the claimed 5xx server-error class. -/
theorem claim3_counterexample :
    (fetch_transcript envAllTransient "9Wg6tiaar9M").result
      = Except.error (mkVE "Error fetching transcript: Read timed out")
    ∧ router_exc_response (mkVE "Error fetching transcript: Read timed out")
      = RouterResult.httpError 400 "Error fetching transcript: Read timed out" :=
  ⟨rfl, rfl⟩

/-- C3 as amended: `fetch_transcript` wraps every failure — including
transient-exhausted and unclassified upstream failures — in `ValueError`,
and the router surfaces every `ValueError` (hence also `InvalidIdentifier`
from `get_video_id` and the unavailable-video wraps) as HTTP 400, the
client-error class; only non-`ValueError` exceptions get the 500
server-error class. -/
theorem claim3_amended_classification :
    (∀ (env : FetchEnv) (vid : String) (e : PyExc),
       (fetch_transcript env vid).result = Except.error e →
         e.kind = ExcKind.valueError ∧ router_exc_response e = .httpError 400 e.msg)
    ∧ (∀ e : PyExc, e.kind ≠ ExcKind.valueError →
         router_exc_response e = .httpError 500 ("Error fetching transcript: " ++ e.msg))
    ∧ (∀ (D : ℕ) (env : FetchEnv) (st : Store) (now : ℚ) (s lang : String) (uc : Bool)
         (m : String), get_video_id s = Except.error m →
           get_transcript D env st now s lang uc = (.httpError 400 m, st)) := by
  refine ⟨?_, ?_, ?_⟩
  · intro env vid e h
    have hk := fetchGo_error_kind env vid [1, 2, 3] [] e h
    exact ⟨hk, by simp [router_exc_response, hk]⟩
  · intro e h
    simp [router_exc_response, h]
  · intro D env st now s lang uc m hgv
    simp [get_transcript, hgv]

/-- Witness for the amended C3 at concrete inputs. -/
theorem claim3_amended_classification_witness :
    ((mkVE "Error fetching transcript: Read timed out").kind = ExcKind.valueError
      ∧ router_exc_response (mkVE "Error fetching transcript: Read timed out")
          = .httpError 400 (mkVE "Error fetching transcript: Read timed out").msg)
    ∧ router_exc_response (PyExc.mk .typeError "t")
        = .httpError 500 ("Error fetching transcript: " ++ (PyExc.mk .typeError "t").msg)
    ∧ get_transcript 30 envAllTransient [] 0 "bad id" "en" true
        = (.httpError 400 "Invalid YouTube URL or ID: bad id", []) := by
  refine ⟨?_, ?_, ?_⟩
  · exact claim3_amended_classification.1 envAllTransient "abcdefghijk" _ rfl
  · exact claim3_amended_classification.2.1 (PyExc.mk .typeError "t") (by intro h; cases h)
  · exact claim3_amended_classification.2.2 30 envAllTransient [] 0 "bad id" "en" true _ rfl

/-! ### C1, C2, C4 — the resolution engine's fetch path

The claims describe the endpoint completing a fresh fetch.  In the code
as written no request can reach that state: the call at transcript.py
line 207 passes a `language` argument `fetch_transcript` does not accept,
so Python raises `TypeError` and the endpoint answers HTTP 500 (see
`router_fetch_call`). -/

/-- A healthy upstream: a single non-auto-generated `"en"` track whose
fetch yields "hello world" — the environment the claims' scenarios
posit. -/
def envOnlyEn : FetchEnv :=
  { api := fun _ =>
      .ok [{ language_code := "en", is_generated := false, fetched := .ok ["hello world"] }]
    jit := fun _ => 0
    meta := [] }

/-- C1's scenario evaluated on the code: request language `"pl"`, empty
cache, upstream holding only an `"en"` track.  The endpoint answers
HTTP 500 (the `TypeError` of the line-207 call) and persists nothing —
under neither the `"en"` nor the `"pl"` key — instead of the claimed
`"en"` result cached under `"en"`. -/
theorem claim1_failing_input_eval :
    get_transcript 30 envOnlyEn [] 0 "9Wg6tiaar9M" "pl" true
      = (.httpError 500 ("Error fetching transcript: " ++ fetch_call_type_error_msg), [])
    ∧ alookup (get_transcript 30 envOnlyEn [] 0 "9Wg6tiaar9M" "pl" true).2
        (cache_file_name "9Wg6tiaar9M" "en") = none
    ∧ alookup (get_transcript 30 envOnlyEn [] 0 "9Wg6tiaar9M" "pl" true).2
        (cache_file_name "9Wg6tiaar9M" "pl") = none :=
  ⟨rfl, rfl, rfl⟩

/-- Counterexample to C2 at its own scenario (identifier `"9Wg6tiaar9M"`,
healthy upstream returning "hello world"/"en"): the `useCache=false`
resolve returns HTTP 500, not the claimed fresh result, and the
subsequent `useCache=true` resolve also returns HTTP 500, never
`servedFromCache=true`. -/
theorem claim2_counterexample :
    (get_transcript 30 envOnlyEn [] 0 "9Wg6tiaar9M" "en" false).1
      = .httpError 500 ("Error fetching transcript: " ++ fetch_call_type_error_msg)
    ∧ (get_transcript 30 envOnlyEn [] 0 "9Wg6tiaar9M" "en" true).1
      = .httpError 500 ("Error fetching transcript: " ++ fetch_call_type_error_msg) :=
  ⟨rfl, rfl⟩

/-- C2 as amended: any resolve that reaches the fetch — every
`useCache=false` call, and every `useCache=true` call whose two cache
lookups miss — fails with HTTP 500 carrying the `TypeError` text of the
two-argument `fetch_transcript` invocation, and leaves the store
untouched (so no later call can be served from cache). -/
theorem claim2_amended_fetch_path_500 (D : ℕ) (env : FetchEnv) (st : Store) (now : ℚ)
    (s v lang : String) (hgv : get_video_id s = Except.ok v) :
    get_transcript D env st now s lang false
      = (.httpError 500 ("Error fetching transcript: " ++ fetch_call_type_error_msg), st)
    ∧ (alookup st (cache_file_name v lang) = none →
       alookup st (cache_file_name v "en") = none →
       get_transcript D env st now s lang true
         = (.httpError 500 ("Error fetching transcript: " ++ fetch_call_type_error_msg), st)) := by
  constructor
  · simp [get_transcript, hgv, fetch_phase, router_fetch_call, router_exc_response, PyExc.kind, PyExc.msg]
  · intro h1 h2
    by_cases hl : lang = "en"
    · subst hl
      simp [get_transcript, hgv, get_cached_transcript, h1, fetch_phase, router_fetch_call,
        router_exc_response, PyExc.kind, PyExc.msg]
    · simp [get_transcript, hgv, get_cached_transcript, h1, h2, hl, fetch_phase,
        router_fetch_call, router_exc_response, PyExc.kind, PyExc.msg]

/-- Witness for the amended C2 at the scenario's concrete inputs. -/
theorem claim2_amended_fetch_path_500_witness :
    get_transcript 30 envOnlyEn [] 0 "9Wg6tiaar9M" "pl" false
      = (.httpError 500 ("Error fetching transcript: " ++ fetch_call_type_error_msg), [])
    ∧ get_transcript 30 envOnlyEn [] 0 "9Wg6tiaar9M" "pl" true
      = (.httpError 500 ("Error fetching transcript: " ++ fetch_call_type_error_msg), []) := by
  have h := claim2_amended_fetch_path_500 30 envOnlyEn [] 0 "9Wg6tiaar9M" "9Wg6tiaar9M" "pl" rfl
  exact ⟨h.1, h.2 rfl rfl⟩

/-- The fetch-result dict C4's scenario would produce. -/
def tdFresh : TData :=
  { video_id := "9Wg6tiaar9M", transcript := "hello world", language := "en"
    cached := false, cached_at := none, cache_used := none, metadata := [] }

/-- C4 evaluated on the code.  First: no resolve call completes a fresh
fetch at all — the fetch invocation raises `TypeError` and the endpoint
answers HTTP 500.  Second: the post-fetch code itself (transcript.py
lines 209-227, embedded as `fresh_path`) contradicts the claim: with
`use_cache=true` it persists via `save_transcript`, whose in-place
mutation plants the write timestamp into the dict, so the "fresh" response
carries `cached_at = some now` — not the claimed null — though
`cache_used` is `false`. -/
theorem claim4_fresh_leaks_cached_at :
    get_transcript 30 envOnlyEn [] 0 "9Wg6tiaar9M" "en" true
      = (.httpError 500 ("Error fetching transcript: " ++ fetch_call_type_error_msg), [])
    ∧ (fresh_path 30 [] 5 "9Wg6tiaar9M" true tdFresh).1
      = .ok { video_id := "9Wg6tiaar9M", transcript := "hello world", language := "en"
              cache_used := false, cached_at := some 5
              metadata := extract_basic_metadata [] } :=
  ⟨rfl, rfl⟩

/-! ### C9 — the MCP tools populate under "pl" but clear under "en" -/

/-- `(a ++ b).data = a.data ++ b.data`. -/
theorem strDataAppend (a b : String) : (a ++ b).data = a.data ++ b.data := by
  cases a; cases b; rfl

/-- The `"en"` and `"pl"` cache keys of one identifier name different
files. -/
theorem cache_file_name_en_ne_pl (vid : String) :
    cache_file_name vid "en" ≠ cache_file_name vid "pl" := by
  intro h
  have h3 := congrArg String.data h
  rw [cache_file_name, cache_file_name, strDataAppend, strDataAppend] at h3
  have h4 := List.append_cancel_left h3
  exact absurd h4 (by decide)

/-- C9: the MCP `get_youtube_transcript` tool reads and writes the cache
with the service defaults, i.e. under `{id}_pl.json` (server.py lines 46
and 64, cache_service.py lines 49 and 84), while the MCP `clear_cache`
tool deletes via `CacheService.clear_cache`, whose default is `"en"`
(server.py line 99, cache_service.py line 102).  Hence after
`get_youtube_transcript` populates the cache, `clear_cache` reports
`success=false` (the `"✗ No cache found …"` message) and the `"pl"` entry
survives. -/
theorem claim9_mcp_language_mismatch (D : ℕ) (env : FetchEnv) (st : Store) (now : ℚ)
    (vid : String) (td : TData)
    (hid : get_video_id vid = Except.ok vid)
    (hpl : alookup st (cache_file_name vid "pl") = none)
    (hen : alookup st (cache_file_name vid "en") = none)
    (hf : (fetch_transcript env vid).result = Except.ok td) :
    alookup (get_youtube_transcript D env st now vid).2 (cache_file_name vid "pl")
      = some (CacheFile.good now { td with cached_at := some now, cache_used := some true })
    ∧ mcp_clear_cache (get_youtube_transcript D env st now vid).2 vid
      = ("✗ " ++ ("No cache found for video " ++ vid ++ " (language: " ++ "en" ++ ")"),
         (get_youtube_transcript D env st now vid).2)
    ∧ alookup (mcp_clear_cache (get_youtube_transcript D env st now vid).2 vid).2
        (cache_file_name vid "pl")
      = some (CacheFile.good now { td with cached_at := some now, cache_used := some true }) := by
  have hrun : (get_youtube_transcript D env st now vid).2
      = ainsert st (cache_file_name vid "pl")
          (CacheFile.good now { td with cached_at := some now, cache_used := some true }) := by
    simp [get_youtube_transcript, hid, get_cached_transcript, hpl, hf, save_transcript]
  have hlook : alookup (get_youtube_transcript D env st now vid).2 (cache_file_name vid "pl")
      = some (CacheFile.good now { td with cached_at := some now, cache_used := some true }) := by
    rw [hrun]; exact alookup_ainsert_self ..
  have hlooken : alookup (get_youtube_transcript D env st now vid).2 (cache_file_name vid "en")
      = none := by
    rw [hrun, alookup_ainsert_ne _ _ _ _ (cache_file_name_en_ne_pl vid)]; exact hen
  have hclear : mcp_clear_cache (get_youtube_transcript D env st now vid).2 vid
      = ("✗ " ++ ("No cache found for video " ++ vid ++ " (language: " ++ "en" ++ ")"),
         (get_youtube_transcript D env st now vid).2) := by
    simp [mcp_clear_cache, hid, clear_cache, hlooken]
  exact ⟨hlook, hclear, by rw [hclear]; exact hlook⟩

/-- Witness for C9 at a concrete identifier, empty store and healthy
upstream. -/
theorem claim9_mcp_language_mismatch_witness :
    alookup (get_youtube_transcript 30 envOnlyEn [] 0 "abcdefghijk").2
        (cache_file_name "abcdefghijk" "pl")
      = some (CacheFile.good 0 { tdHello with cached_at := some 0, cache_used := some true })
    ∧ mcp_clear_cache (get_youtube_transcript 30 envOnlyEn [] 0 "abcdefghijk").2 "abcdefghijk"
      = ("✗ " ++ ("No cache found for video " ++ "abcdefghijk" ++ " (language: " ++ "en" ++ ")"),
         (get_youtube_transcript 30 envOnlyEn [] 0 "abcdefghijk").2)
    ∧ alookup (mcp_clear_cache (get_youtube_transcript 30 envOnlyEn [] 0 "abcdefghijk").2
          "abcdefghijk").2 (cache_file_name "abcdefghijk" "pl")
      = some (CacheFile.good 0 { tdHello with cached_at := some 0, cache_used := some true }) :=
  claim9_mcp_language_mismatch 30 envOnlyEn [] 0 "abcdefghijk" tdHello rfl rfl rfl rfl

/-! ### C10 — the identifier resolver -/

theorem litPre_self_append (lit t : List Char) : litPre lit (lit ++ t) = true := by
  induction lit with
  | nil => rfl
  | cons a as ih => simp [litPre, ih]

theorem takeWhile_all_ok (l : List Char) (h : l.all okChar = true) :
    l.takeWhile okChar = l := by
  induction l with
  | nil => rfl
  | cons c cs ih =>
    rw [List.all_cons, Bool.and_eq_true] at h
    simp [List.takeWhile_cons, h.1, ih h.2]

theorem takeWhile_ok_stop (l : List Char) (r0 : Char) (t : List Char)
    (h : l.all okChar = true) (hr : okChar r0 = false) :
    (l ++ r0 :: t).takeWhile okChar = l := by
  induction l with
  | nil => simp [List.takeWhile_cons, hr]
  | cons c cs ih =>
    rw [List.all_cons, Bool.and_eq_true] at h
    simp [List.takeWhile_cons, h.1, ih h.2]

/-- A capture alternative anchored exactly at its literal consumes the
whole remaining run when every remaining character is capturable. -/
theorem captureAt_exact (lit : List Char) (c : Char) (cs : List Char)
    (hok : (c :: cs).all okChar = true) :
    captureAt lit (lit ++ c :: cs) = some (c :: cs) := by
  have hne : (c :: cs).isEmpty = false := rfl
  simp [captureAt, litPre_self_append, List.drop_left, takeWhile_all_ok _ hok, hne]

/-- The capture stops at the first terminator character
(`&`, newline, `?`, `#`). -/
theorem captureAt_upto (lit : List Char) (c : Char) (cs : List Char) (r0 : Char)
    (t : List Char) (hok : (c :: cs).all okChar = true) (hr : okChar r0 = false) :
    captureAt lit (lit ++ (c :: (cs ++ r0 :: t))) = some (c :: cs) := by
  have h3 : (c :: (cs ++ r0 :: t)).takeWhile okChar = c :: cs := by
    have h4 := takeWhile_ok_stop (c :: cs) r0 t hok hr
    simpa using h4
  simp [captureAt, litPre_self_append, List.drop_left, h3]

theorem p1Search_cons (c : Char) (t g : List Char) (h : p1At (c :: t) = some g) :
    p1Search (c :: t) = some g := by
  simp [p1Search, h]

theorem p1At_first (l g : List Char) (h : captureAt litWatch l = some g) :
    p1At l = some g := by
  simp [p1At, h]

theorem p1At_second (l g : List Char) (h1 : captureAt litWatch l = none)
    (h2 : captureAt litShort l = some g) : p1At l = some g := by
  simp [p1At, h1, h2]

theorem p1At_third (l g : List Char) (h1 : captureAt litWatch l = none)
    (h2 : captureAt litShort l = none) (h3 : captureAt litEmbed l = some g) :
    p1At l = some g := by
  simp [p1At, h1, h2, h3]

/-- `get_video_id` on `youtube.com/watch?v=` followed by a capturable ID. -/
theorem gv_watch (c : Char) (cs : List Char) (hok : (c :: cs).all okChar = true) :
    get_video_id ("youtube.com/watch?v=" ++ String.mk (c :: cs))
      = Except.ok (String.mk (c :: cs)) := by
  have hres : (("youtube.com/watch?v=" ++ String.mk (c :: cs)).data.any reservedChar) = true := rfl
  have hp1 : p1Search
      ('y' :: 'o' :: 'u' :: 't' :: 'u' :: 'b' :: 'e' :: '.' :: 'c' :: 'o' :: 'm' :: '/' :: 'w' :: 'a' :: 't' :: 'c' :: 'h' :: '?' :: 'v' :: '=' :: c :: cs)
      = some (c :: cs) := by
    apply p1Search_cons
    apply p1At_first
    show captureAt litWatch (litWatch ++ c :: cs) = some (c :: cs)
    exact captureAt_exact _ _ _ hok
  unfold get_video_id
  rw [hres]
  simp [hp1]

/-- `get_video_id` on a `youtu.be/` short link. -/
theorem gv_short (c : Char) (cs : List Char) (hok : (c :: cs).all okChar = true) :
    get_video_id ("youtu.be/" ++ String.mk (c :: cs)) = Except.ok (String.mk (c :: cs)) := by
  have hres : (("youtu.be/" ++ String.mk (c :: cs)).data.any reservedChar) = true := rfl
  have hp1 : p1Search ('y' :: 'o' :: 'u' :: 't' :: 'u' :: '.' :: 'b' :: 'e' :: '/' :: c :: cs) = some (c :: cs) := by
    apply p1Search_cons
    apply p1At_second
    · rfl
    · show captureAt litShort (litShort ++ c :: cs) = some (c :: cs)
      exact captureAt_exact _ _ _ hok
  unfold get_video_id
  rw [hres]
  simp [hp1]

/-- `get_video_id` on a `youtube.com/embed/` URL. -/
theorem gv_embed (c : Char) (cs : List Char) (hok : (c :: cs).all okChar = true) :
    get_video_id ("youtube.com/embed/" ++ String.mk (c :: cs))
      = Except.ok (String.mk (c :: cs)) := by
  have hres : (("youtube.com/embed/" ++ String.mk (c :: cs)).data.any reservedChar) = true := rfl
  have hp1 : p1Search
      ('y' :: 'o' :: 'u' :: 't' :: 'u' :: 'b' :: 'e' :: '.' :: 'c' :: 'o' :: 'm' :: '/' :: 'e' :: 'm' :: 'b' :: 'e' :: 'd' :: '/' :: c :: cs)
      = some (c :: cs) := by
    apply p1Search_cons
    apply p1At_third
    · rfl
    · rfl
    · show captureAt litEmbed (litEmbed ++ c :: cs) = some (c :: cs)
      exact captureAt_exact _ _ _ hok
  unfold get_video_id
  rw [hres]
  simp [hp1]

/-- `get_video_id` captures only up to the first terminator: a `&t=1`
query suffix is not part of the returned ID. -/
theorem gv_watch_upto (c : Char) (cs : List Char) (hok : (c :: cs).all okChar = true) :
    get_video_id ("youtube.com/watch?v=" ++ String.mk (c :: cs) ++ "&t=1")
      = Except.ok (String.mk (c :: cs)) := by
  have hres :
      (("youtube.com/watch?v=" ++ String.mk (c :: cs) ++ "&t=1").data.any reservedChar) = true :=
    rfl
  have hp1 : p1Search
      ('y' :: 'o' :: 'u' :: 't' :: 'u' :: 'b' :: 'e' :: '.' :: 'c' :: 'o' :: 'm' :: '/' :: 'w' :: 'a' :: 't' :: 'c' :: 'h' :: '?' :: 'v' :: '=' ::
        (c :: (cs ++ ('&' :: 't' :: '=' :: '1' :: []))))
      = some (c :: cs) := by
    apply p1Search_cons
    apply p1At_first
    show captureAt litWatch (litWatch ++ (c :: (cs ++ ('&' :: 't' :: '=' :: '1' :: [])))) = some (c :: cs)
    exact captureAt_upto litWatch c cs '&' ('t' :: '=' :: '1' :: []) hok rfl
  unfold get_video_id
  rw [hres]
  simp [hp1]

/-- C10: the identifier resolver (youtube_service.py lines 24-53) —
(1) every 11-character input free of `/ . ? &` is returned unchanged;
(2) every supported URL shape embedding a capturable ID `X` yields
exactly `X`, the capture stopping at the first `&`/newline/`?`/`#`
(shown symbolically for the three pattern-1 shapes and a terminator
suffix, and concretely for a full https URL and a pattern-2 URL);
(3) every input that is neither a bare ID nor matched by either pattern
fails with the `Invalid YouTube URL or ID` error. -/
theorem claim10_identifier_resolver :
    (∀ s : String, s.length = 11 → s.data.any reservedChar = false →
        get_video_id s = Except.ok s)
    ∧ (∀ X : String, X.data ≠ [] → X.data.all okChar = true →
        get_video_id ("youtube.com/watch?v=" ++ X) = Except.ok X
        ∧ get_video_id ("youtu.be/" ++ X) = Except.ok X
        ∧ get_video_id ("youtube.com/embed/" ++ X) = Except.ok X
        ∧ get_video_id ("youtube.com/watch?v=" ++ X ++ "&t=1") = Except.ok X)
    ∧ get_video_id "https://www.youtube.com/watch?v=9Wg6tiaar9M" = Except.ok "9Wg6tiaar9M"
    ∧ get_video_id "youtube.com/watch?app=desktop&v=abc12345678" = Except.ok "abc12345678"
    ∧ (∀ s : String, s.length ≠ 11 ∨ s.data.any reservedChar = true →
        p1Search s.data = none → p2Search s.data = none →
        get_video_id s = Except.error ("Invalid YouTube URL or ID: " ++ s)) := by
  refine ⟨?_, ?_, rfl, rfl, ?_⟩
  · intro s h1 h2
    unfold get_video_id
    simp [h1, h2]
  · intro X h1 h2
    obtain ⟨xd⟩ := X
    cases xd with
    | nil => exact absurd rfl h1
    | cons c cs => exact ⟨gv_watch c cs h2, gv_short c cs h2, gv_embed c cs h2,
        gv_watch_upto c cs h2⟩
  · intro s hb hp1 hp2
    have hcond : (s.length == 11 && !(s.data.any reservedChar)) = false := by
      rcases hb with h | h
      · have h4 : (s.length == 11) = false := by
          rw [beq_eq_false_iff_ne]; exact h
        simp [h4]
      · simp [h]
    unfold get_video_id
    simp [hcond, hp1, hp2]

/-- Witness for C10 at concrete inputs for each part. -/
theorem claim10_identifier_resolver_witness :
    get_video_id "9Wg6tiaar9M" = Except.ok "9Wg6tiaar9M"
    ∧ get_video_id ("youtu.be/" ++ "dQw4w9WgXcQ") = Except.ok "dQw4w9WgXcQ"
    ∧ get_video_id "not a valid id"
        = Except.error ("Invalid YouTube URL or ID: " ++ "not a valid id") := by
  refine ⟨?_, ?_, ?_⟩
  · exact claim10_identifier_resolver.1 "9Wg6tiaar9M" (by decide) (by decide)
  · exact (claim10_identifier_resolver.2.1 "dQw4w9WgXcQ" (by decide) (by decide)).2.1
  · exact claim10_identifier_resolver.2.2.2.2 "not a valid id" (Or.inl (by decide)) rfl rfl

end YTA
